import Mathlib

/-!
Verification of the simple-vad-demo backend pipeline: resampler, frame
accumulator, hysteresis state machine, session lifecycle and the
connection registry read by the health endpoints.

Samples and confidences are modelled as rationals; the resampler and the
accumulator only move samples around (no arithmetic on sample values), and
every comparison the hysteresis logic performs is exact at the inputs the
theorems use. External collaborators (the Opus decoder and the Silero
scorer) are modelled as parameters: the decoder by the `Option` outcome
that `decode_opus` produces from it, the scorer by a function that either
returns a confidence or fails.
-/

/-! ### Resampler (`AudioService.resample_24k_to_16k`) -/

/-- Number of elements of `np.arange(0, n, 1.5)`, i.e. the count of `k`
with `1.5 * k < n`. -/
def decimationIndexCount (n : ℕ) : ℕ := (2 * n + 2) / 3

/-- `np.arange(0, n, 1.5).astype(int)`: the truncated multiples of 1.5
below `n`. -/
def decimationIndices (n : ℕ) : List ℕ :=
  (List.range (decimationIndexCount n)).map (fun k => 3 * k / 2)

/-- State of `AudioService`: the carried-over `audio_buffer`. -/
structure AudioServiceState where
  audio_buffer : List ℚ
deriving DecidableEq

/-- `AudioService.resample_24k_to_16k`: append the chunk to the buffer;
if at least 3 samples are available, emit the samples at the truncated
multiples of 1.5 and keep the buffer suffix starting at the last used
index; otherwise emit nothing. Returns (new state, emitted samples). -/
def resample_24k_to_16k (st : AudioServiceState) (audio_24k : List ℚ) :
    AudioServiceState × List ℚ :=
  let buffer := st.audio_buffer ++ audio_24k
  if 3 ≤ buffer.length then
    let indices := decimationIndices buffer.length
    let resampled := indices.map (fun i => buffer.getD i 0)
    let last_used_idx := indices.getLast?.getD 0
    (⟨buffer.drop last_used_idx⟩, resampled)
  else
    (⟨buffer⟩, [])

/-- `AudioService.reset`: clear the resampler remainder buffer. -/
def AudioServiceState.reset (_ : AudioServiceState) : AudioServiceState := ⟨[]⟩

/-! ### Hysteresis state machine (`SileroVADProcessor`) -/

/-- The two discrete events the hysteresis logic can emit. -/
inductive VADEventType where
  | speech_start
  | speech_end
deriving DecidableEq

/-- Configuration of `SileroVADProcessor.__init__`. -/
structure VADConfig where
  sample_rate : ℚ
  speech_threshold : ℚ
  silence_threshold : ℚ
  min_speech_duration_ms : ℚ
  min_silence_duration_ms : ℚ

/-- `self.frames_per_ms = sample_rate / 1000`. -/
def VADConfig.frames_per_ms (cfg : VADConfig) : ℚ := cfg.sample_rate / 1000

/-- Mutable state of `SileroVADProcessor`. -/
structure HysteresisState where
  is_speaking : Bool
  speech_frames : ℕ
  silence_frames : ℕ
deriving DecidableEq

/-- State set by `SileroVADProcessor.__init__` and by `reset_state`. -/
def initialHysteresisState : HysteresisState := ⟨false, 0, 0⟩

/-- `SileroVADProcessor._apply_hysteresis`: update the run counters from
one (confidence, chunk size) observation and possibly emit an event. -/
def apply_hysteresis (cfg : VADConfig) (st : HysteresisState)
    (confidence : ℚ) (chunk_size : ℕ) : HysteresisState × Option VADEventType :=
  if cfg.speech_threshold < confidence then
    let speech_frames := st.speech_frames + chunk_size
    let min_speech_samples := cfg.min_speech_duration_ms * cfg.frames_per_ms
    if st.is_speaking = false ∧ min_speech_samples ≤ (speech_frames : ℚ) then
      (⟨true, speech_frames, 0⟩, some .speech_start)
    else
      (⟨st.is_speaking, speech_frames, 0⟩, none)
  else if confidence < cfg.silence_threshold then
    let silence_frames := st.silence_frames + chunk_size
    let min_silence_samples := cfg.min_silence_duration_ms * cfg.frames_per_ms
    if st.is_speaking = true ∧ min_silence_samples ≤ (silence_frames : ℚ) then
      (⟨false, 0, silence_frames⟩, some .speech_end)
    else
      (⟨st.is_speaking, 0, silence_frames⟩, none)
  else
    (st, none)

/-- Run `_apply_hysteresis` over a list of (confidence, chunk size)
observations, collecting the per-frame event outputs in order. -/
def run_hysteresis (cfg : VADConfig) (st : HysteresisState) :
    List (ℚ × ℕ) → HysteresisState × List (Option VADEventType)
  | [] => (st, [])
  | f :: fs =>
    let step := apply_hysteresis cfg st f.1 f.2
    let rest := run_hysteresis cfg step.1 fs
    (rest.1, step.2 :: rest.2)

/-- The discrete events actually emitted over a run, in order. -/
def event_trace (cfg : VADConfig) (st : HysteresisState)
    (frames : List (ℚ × ℕ)) : List VADEventType :=
  ((run_hysteresis cfg st frames).2).filterMap id

/-! ### VAD service (`VADService.process_audio`) -/

/-- `VADService.VAD_CHUNK_SIZE`. -/
def VAD_CHUNK_SIZE : ℕ := 512

/-- `VADResult` from models/messages.py. -/
structure VADResult where
  event : Option VADEventType
  confidence : ℚ
deriving DecidableEq

/-- State of `VADService`: the processor state plus the frame
accumulation buffer. -/
structure VADServiceState where
  hyst : HysteresisState
  audio_buffer : List ℚ
deriving DecidableEq

/-- State built by `VADService.__init__`. -/
def initialVADServiceState : VADServiceState := ⟨initialHysteresisState, []⟩

/-- The external scorer call inside `process_audio_chunk` (the Silero
model): either a confidence, or a failure (a raised exception). -/
def Scorer : Type := List ℚ → Except Unit ℚ

/-- `VADService.process_audio`: append the chunk to the buffer; if at
least 512 samples are available, extract the first 512, score them and
apply hysteresis; on scorer failure return `(None, 0.0)` (the except
branch); below 512 samples return `(None, 0.0)` without scoring. -/
def process_audio (cfg : VADConfig) (scorer : Scorer) (st : VADServiceState)
    (audio_chunk : List ℚ) : VADServiceState × VADResult :=
  let buffer := st.audio_buffer ++ audio_chunk
  if VAD_CHUNK_SIZE ≤ buffer.length then
    let vad_chunk := buffer.take VAD_CHUNK_SIZE
    let rest := buffer.drop VAD_CHUNK_SIZE
    match scorer vad_chunk with
    | .ok confidence =>
      let step := apply_hysteresis cfg st.hyst confidence vad_chunk.length
      (⟨step.1, rest⟩, ⟨step.2, confidence⟩)
    | .error _ => (⟨st.hyst, rest⟩, ⟨none, 0⟩)
  else
    (⟨st.hyst, buffer⟩, ⟨none, 0⟩)

/-- `VADService.reset`: `reset_state` on the processor plus clearing the
frame accumulation buffer. -/
def VADServiceState.reset (_ : VADServiceState) : VADServiceState :=
  ⟨initialHysteresisState, []⟩

/-! ### Session and connection layer (`connection_service.py`) -/

/-- `AudioSession`: one `AudioService` plus one `VADService`. -/
structure AudioSession where
  audio : AudioServiceState
  vad : VADServiceState
deriving DecidableEq

/-- Session built by `AudioSession.__init__`. -/
def initialSession : AudioSession := ⟨⟨[]⟩, initialVADServiceState⟩

/-- `AudioSession.reset`: reset the audio service and the VAD service. -/
def AudioSession.reset (s : AudioSession) : AudioSession :=
  ⟨s.audio.reset, s.vad.reset⟩

/-- `AudioService.decode_opus`, over the outcome of the external
`OpusStreamReader.append_bytes` call: `none` models a raised exception,
`some pcm` the decoded samples; a decode yielding no samples is mapped to
`None` just like a failure. -/
def decode_opus (outcome : Option (List ℚ)) : Option (List ℚ) :=
  match outcome with
  | none => none
  | some audio_array => if 0 < audio_array.length then some audio_array else none

/-- `AudioService.process_opus_chunk`: decode, then resample; `none` when
decoding fails or the resampler emits nothing. -/
def process_opus_chunk (st : AudioServiceState) (outcome : Option (List ℚ)) :
    AudioServiceState × Option (List ℚ) :=
  match decode_opus outcome with
  | none => (st, none)
  | some audio_24k =>
    let r := resample_24k_to_16k st audio_24k
    (r.1, if 0 < r.2.length then some r.2 else none)

/-- Outbound websocket messages of `ConnectionService.handle_audio_chunk`
(the timestamp field, real time, is omitted). -/
inductive ServerMessage where
  | vad_event (event : VADEventType) (confidence : ℚ)
  | vad_confidence (confidence : ℚ) (is_speaking : Bool)
deriving DecidableEq

/-- The messages `handle_audio_chunk` sends for one VAD result: an event
message when an event fired, and a confidence message when the confidence
exceeds 0.1; `is_speaking` is read from the session after processing. -/
def outbound_messages (r : VADResult) (is_speaking : Bool) : List ServerMessage :=
  (match r.event with
   | some e => [.vad_event e r.confidence]
   | none => []) ++
  (if 1 / 10 < r.confidence then [.vad_confidence r.confidence is_speaking] else [])

/-- `ConnectionService.handle_audio_chunk` for one chunk of a live
session: process the opus chunk; on `None` return with no VAD call and no
message, otherwise run the VAD service and emit the outbound messages. -/
def handle_audio_chunk (cfg : VADConfig) (scorer : Scorer) (s : AudioSession)
    (outcome : Option (List ℚ)) : AudioSession × List ServerMessage :=
  let p := process_opus_chunk s.audio outcome
  match p.2 with
  | none => (⟨p.1, s.vad⟩, [])
  | some audio_16k =>
    let v := process_audio cfg scorer s.vad audio_16k
    (⟨p.1, v.1⟩, outbound_messages v.2 v.1.hyst.is_speaking)

/-- Feed a session a sequence of chunk outcomes, collecting the outbound
messages of every call. -/
def run_session (cfg : VADConfig) (scorer : Scorer) (s : AudioSession) :
    List (Option (List ℚ)) → AudioSession × List (List ServerMessage)
  | [] => (s, [])
  | d :: ds =>
    let h := handle_audio_chunk cfg scorer s d
    let rest := run_session cfg scorer h.1 ds
    (rest.1, h.2 :: rest.2)

/-! ### Connection registry and the two module-level instances -/

/-- `ConnectionService`: the `active_sessions` mapping, keyed by the
websocket identity. -/
structure ConnectionService where
  active_sessions : List (ℕ × AudioSession)

/-- `ConnectionService.connection_count`. -/
def ConnectionService.connection_count (cs : ConnectionService) : ℕ :=
  cs.active_sessions.length

/-- `ConnectionService.connect` for a fresh websocket identity: register
a new session. -/
def ConnectionService.connect (cs : ConnectionService) (ws : ℕ) : ConnectionService :=
  ⟨(ws, initialSession) :: cs.active_sessions⟩

/-- The two module-level `ConnectionService()` instances: `api/websocket.py`
constructs one and `api/health.py` constructs another, separate one. -/
structure BackendApp where
  websocket_service : ConnectionService
  health_service : ConnectionService

/-- The application at import time: both module-level instances start
with no sessions. -/
def initialBackendApp : BackendApp := ⟨⟨[]⟩, ⟨[]⟩⟩

/-- The `/ws` endpoint accepting a client: it calls `connect` on the
instance of `api/websocket.py`. -/
def ws_endpoint_connect (b : BackendApp) (ws : ℕ) : BackendApp :=
  { b with websocket_service := b.websocket_service.connect ws }

/-- The `active_connections` field reported by the `/` and `/health`
endpoints: `connection_count` of the instance of `api/health.py`. -/
def health_active_connections (b : BackendApp) : ℕ :=
  b.health_service.connection_count

/-! ### Concrete configurations from the source -/

/-- The configuration `VADService.__init__` passes to the processor
(16 kHz, thresholds 0.5 / 0.3, durations 150 ms / 400 ms). -/
def vadServiceConfig : VADConfig := ⟨16000, 1 / 2, 3 / 10, 150, 400⟩

/-- The `SileroVADProcessor` defaults (16 kHz, thresholds 0.5 / 0.3,
durations 100 ms / 300 ms), the preset with
`min_speech_duration_samples = 1600`. -/
def debounceConfig : VADConfig := ⟨16000, 1 / 2, 3 / 10, 100, 300⟩

/-! ### C1: resampler chunk-boundary behaviour -/

/-- C1 evaluation: on the six-sample input 0,1,2,3,4,5, one call emits
[0,1,3,4], while two calls of three samples each emit [0,1] and then
[1,2,4,5]; the concatenation differs from the one-call output, so the
resampler output depends on chunk boundaries (the sample at the last used
index stays in the remainder and is emitted again). -/
theorem resample_chunk_boundary_dependent :
    (resample_24k_to_16k ⟨[]⟩ [0, 1, 2, 3, 4, 5]).2 = [0, 1, 3, 4] ∧
    ((resample_24k_to_16k ⟨[]⟩ [0, 1, 2]).2 ++
      (resample_24k_to_16k (resample_24k_to_16k ⟨[]⟩ [0, 1, 2]).1 [3, 4, 5]).2
        = [0, 1, 1, 2, 4, 5]) ∧
    ([0, 1, 3, 4] : List ℚ) ≠ [0, 1, 1, 2, 4, 5] := by
  refine ⟨?_, ?_, ?_⟩ <;> decide

/-! ### C8: health endpoint session count -/

/-- C8 evaluation: after one client connects through the `/ws` endpoint,
the websocket module's `ConnectionService` holds one live session, yet the
health endpoints report `active_connections = 0`, because `api/health.py`
reads its own, separate `ConnectionService` instance that never receives
connections. -/
theorem health_count_misses_websocket_sessions :
    (ws_endpoint_connect initialBackendApp 0).websocket_service.connection_count = 1 ∧
    health_active_connections (ws_endpoint_connect initialBackendApp 0) = 0 ∧
    health_active_connections (ws_endpoint_connect initialBackendApp 0) ≠
      (ws_endpoint_connect initialBackendApp 0).websocket_service.connection_count := by
  refine ⟨rfl, rfl, ?_⟩
  decide

/-! ### C5: reset equals fresh session -/

/-- C5: `reset()` clears the resampler remainder buffer, the frame
accumulation buffer and the hysteresis state together, so a session in any
state, once reset, is exactly the initial session, and every subsequent
input sequence produces the same sessions and the same outbound message
sequence as a newly constructed session fed that input. -/
theorem reset_equals_fresh_session (s : AudioSession) (cfg : VADConfig)
    (scorer : Scorer) (inputs : List (Option (List ℚ))) :
    s.reset = initialSession ∧
    run_session cfg scorer s.reset inputs = run_session cfg scorer initialSession inputs :=
  ⟨rfl, rfl⟩

/-! ### C7: decode failure leaves the session untouched -/

/-- C7: when the decoder fails on a chunk (raises, or yields no PCM
samples, so `decode_opus` returns `None`), handling that chunk mutates
neither the resampler remainder buffer nor the frame accumulation buffer
nor the hysteresis state, and sends no message: the session is returned
unchanged with an empty message list. -/
theorem decode_failure_leaves_session_unchanged (cfg : VADConfig)
    (scorer : Scorer) (s : AudioSession) (outcome : Option (List ℚ))
    (h : decode_opus outcome = none) :
    handle_audio_chunk cfg scorer s outcome = (s, []) := by
  simp [handle_audio_chunk, process_opus_chunk, h]

/-- C7 witness: a chunk whose decode raised (outcome `none`) leaves the
fresh session unchanged and produces no message. -/
theorem decode_failure_leaves_session_unchanged_witness :
    handle_audio_chunk vadServiceConfig (fun _ => .ok 1) initialSession none
      = (initialSession, []) :=
  decode_failure_leaves_session_unchanged vadServiceConfig (fun _ => .ok 1)
    initialSession none rfl

/-! ### C6: scorer failure is fail-open -/

/-- C6: when the buffered samples reach a full frame and the scorer call
fails on that frame, `process_audio` returns event `None` with confidence
`0.0` instead of propagating the failure, and leaves the service in a
well-defined state (hysteresis untouched, buffer advanced past the
extracted frame), so the session keeps accepting subsequent chunks. -/
theorem scorer_failure_fail_open (cfg : VADConfig) (scorer : Scorer)
    (st : VADServiceState) (chunk : List ℚ)
    (hlen : VAD_CHUNK_SIZE ≤ (st.audio_buffer ++ chunk).length)
    (herr : scorer ((st.audio_buffer ++ chunk).take VAD_CHUNK_SIZE) = .error ()) :
    (process_audio cfg scorer st chunk).2 = ⟨none, 0⟩ ∧
    (process_audio cfg scorer st chunk).1
      = ⟨st.hyst, (st.audio_buffer ++ chunk).drop VAD_CHUNK_SIZE⟩ := by
  have hlen2 : VAD_CHUNK_SIZE ≤ st.audio_buffer.length + chunk.length := by
    simpa using hlen
  simp [process_audio, hlen2, herr]

/-- C6 witness: a full 512-sample frame scored by an always-failing
scorer yields event `None` and confidence `0.0`. -/
theorem scorer_failure_fail_open_witness :
    (process_audio vadServiceConfig (fun _ => .error ()) initialVADServiceState
      (List.replicate 512 (0 : ℚ))).2 = ⟨none, 0⟩ :=
  (scorer_failure_fail_open vadServiceConfig (fun _ => .error ())
    initialVADServiceState (List.replicate 512 (0 : ℚ))
    (by show (512:ℕ) ≤ (([] : List ℚ) ++ List.replicate 512 (0:ℚ)).length
        rw [List.nil_append, List.length_replicate]) rfl).1

/-! ### C10: buffering calls are silent -/

/-- C10: a `process_audio` call whose buffer still holds fewer than 512
samples after appending the input returns event `None` with confidence
exactly `0.0`, leaves the hysteresis state untouched (only the buffer
grows), does not depend on the scorer at all, and — since the connection
layer sends a confidence message only above 0.1 and an event message only
for an actual event — such a result sends no message to the client. -/
theorem buffering_call_silent (cfg : VADConfig) (scorer scorer2 : Scorer)
    (st : VADServiceState) (chunk : List ℚ)
    (h : (st.audio_buffer ++ chunk).length < VAD_CHUNK_SIZE) :
    process_audio cfg scorer st chunk
      = (⟨st.hyst, st.audio_buffer ++ chunk⟩, ⟨none, 0⟩) ∧
    process_audio cfg scorer st chunk = process_audio cfg scorer2 st chunk ∧
    ∀ b : Bool, outbound_messages ⟨none, 0⟩ b = [] := by
  have h2 : ¬ VAD_CHUNK_SIZE ≤ st.audio_buffer.length + chunk.length := by
    simpa using Nat.not_le.mpr h
  refine ⟨?_, ?_, ?_⟩
  · simp [process_audio, h2]
  · simp [process_audio, h2]
  · intro b
    simp [outbound_messages]

/-- C10 witness: 100 samples on an empty buffer stay below the frame
size; the call is silent and independent of the scorer. -/
theorem buffering_call_silent_witness :
    process_audio vadServiceConfig (fun _ => .ok 1) initialVADServiceState
        (List.replicate 100 (0 : ℚ))
      = (⟨initialHysteresisState, List.replicate 100 (0 : ℚ)⟩, ⟨none, 0⟩) := by
  have h := buffering_call_silent vadServiceConfig (fun _ => .ok 1)
    (fun _ => .error ()) initialVADServiceState (List.replicate 100 (0 : ℚ))
    (by show (([] : List ℚ) ++ List.replicate 100 (0:ℚ)).length < 512
        rw [List.nil_append, List.length_replicate]
        decide)
  simpa [initialVADServiceState] using h.1

/-! ### C2: frame accumulator releases at most one frame per call -/

/-- Helper: when a full frame is available and the scorer succeeds,
`process_audio` extracts exactly the first 512 samples, scores them, and
keeps the rest of the buffer. -/
theorem process_audio_ok_eq (cfg : VADConfig) (scorer : Scorer)
    (st : VADServiceState) (chunk : List ℚ) (c : ℚ)
    (hlen : VAD_CHUNK_SIZE ≤ (st.audio_buffer ++ chunk).length)
    (hok : scorer ((st.audio_buffer ++ chunk).take VAD_CHUNK_SIZE) = .ok c) :
    process_audio cfg scorer st chunk
      = (⟨(apply_hysteresis cfg st.hyst c VAD_CHUNK_SIZE).1,
          (st.audio_buffer ++ chunk).drop VAD_CHUNK_SIZE⟩,
         ⟨(apply_hysteresis cfg st.hyst c VAD_CHUNK_SIZE).2, c⟩) := by
  have hlen2 : VAD_CHUNK_SIZE ≤ st.audio_buffer.length + chunk.length := by
    simpa using hlen
  have hmin : VAD_CHUNK_SIZE ⊓ (st.audio_buffer.length + chunk.length) = VAD_CHUNK_SIZE :=
    min_eq_left hlen2
  simp [process_audio, hlen2, hok, hmin]

set_option maxRecDepth 8192 in
/-- C2 counterexample: a 1024-sample input on an empty buffer is
processed (the scorer runs, confidence 0.9 is reported), a frame is
released, yet the buffer immediately after the call holds 512 samples —
not strictly less than `frame_size`: `process_audio` extracts one frame
per call (an `if`, not a `while`). -/
theorem frame_buffer_invariant_counterexample :
    ((process_audio vadServiceConfig (fun _ => .ok (9/10)) initialVADServiceState
        (List.replicate 1024 (0:ℚ))).2).confidence = 9/10 ∧
    ((process_audio vadServiceConfig (fun _ => .ok (9/10)) initialVADServiceState
        (List.replicate 1024 (0:ℚ))).1).audio_buffer.length = 512 ∧
    ¬ ((process_audio vadServiceConfig (fun _ => .ok (9/10)) initialVADServiceState
        (List.replicate 1024 (0:ℚ))).1).audio_buffer.length < VAD_CHUNK_SIZE := by
  have hlen : VAD_CHUNK_SIZE ≤
      (initialVADServiceState.audio_buffer ++ List.replicate 1024 (0:ℚ)).length := by
    show (512:ℕ) ≤ (([] : List ℚ) ++ List.replicate 1024 (0:ℚ)).length
    rw [List.nil_append, List.length_replicate]
    decide
  have h := process_audio_ok_eq vadServiceConfig (fun _ => .ok (9/10))
    initialVADServiceState (List.replicate 1024 (0:ℚ)) (9/10) hlen rfl
  rw [h]
  refine ⟨rfl, ?_, ?_⟩
  · show ((([] : List ℚ) ++ List.replicate 1024 (0:ℚ)).drop VAD_CHUNK_SIZE).length = 512
    rw [List.nil_append, List.length_drop, List.length_replicate]
    decide
  · show ¬ ((([] : List ℚ) ++ List.replicate 1024 (0:ℚ)).drop VAD_CHUNK_SIZE).length
        < VAD_CHUNK_SIZE
    rw [List.nil_append, List.length_drop, List.length_replicate]
    decide

/-- C2 amended: each `process_audio` call releases at most one frame —
whenever the buffer after appending the input holds at least 512 samples,
exactly the first 512 are removed (whether the scorer succeeds or fails),
so the buffer afterwards holds `total - 512` samples, a count that can
itself still be at least `frame_size`. -/
theorem process_audio_single_frame (cfg : VADConfig) (scorer : Scorer)
    (st : VADServiceState) (chunk : List ℚ)
    (hlen : VAD_CHUNK_SIZE ≤ (st.audio_buffer ++ chunk).length) :
    (process_audio cfg scorer st chunk).1.audio_buffer
        = (st.audio_buffer ++ chunk).drop VAD_CHUNK_SIZE ∧
    (process_audio cfg scorer st chunk).1.audio_buffer.length
        = (st.audio_buffer ++ chunk).length - VAD_CHUNK_SIZE := by
  have hlen2 : VAD_CHUNK_SIZE ≤ st.audio_buffer.length + chunk.length := by
    simpa using hlen
  cases hs : scorer ((st.audio_buffer ++ chunk).take VAD_CHUNK_SIZE) <;>
    simp [process_audio, hlen2, hs]

/-- C2 amended witness: a 512-sample input on the empty buffer leaves an
empty buffer behind. -/
theorem process_audio_single_frame_witness :
    (process_audio vadServiceConfig (fun _ => .ok 0) initialVADServiceState
        (List.replicate 512 (0:ℚ))).1.audio_buffer
      = (initialVADServiceState.audio_buffer ++ List.replicate 512 (0:ℚ)).drop
          VAD_CHUNK_SIZE :=
  (process_audio_single_frame vadServiceConfig (fun _ => .ok 0)
    initialVADServiceState (List.replicate 512 (0:ℚ))
    (by show (512:ℕ) ≤ (([] : List ℚ) ++ List.replicate 512 (0:ℚ)).length
        rw [List.nil_append, List.length_replicate])).1

/-! ### C4: hysteresis dead zone -/

/-- One dead-zone observation: a confidence in the closed interval
between the thresholds takes the final `else` branch and changes
nothing. -/
theorem apply_hysteresis_dead (cfg : VADConfig) (st : HysteresisState)
    (c : ℚ) (n : ℕ) (h1 : cfg.silence_threshold ≤ c)
    (h2 : c ≤ cfg.speech_threshold) :
    apply_hysteresis cfg st c n = (st, none) := by
  unfold apply_hysteresis
  rw [if_neg (not_lt.mpr h2), if_neg (not_lt.mpr h1)]

/-- C4: for every hysteresis state and every frame sequence whose
confidences all lie in the closed dead zone
`[silence_threshold, speech_threshold]`, the run leaves `is_speaking` and
both run counters unchanged and emits no event on any frame. -/
theorem hysteresis_dead_zone (cfg : VADConfig) (st : HysteresisState)
    (frames : List (ℚ × ℕ))
    (h : ∀ f ∈ frames, cfg.silence_threshold ≤ f.1 ∧ f.1 ≤ cfg.speech_threshold) :
    run_hysteresis cfg st frames = (st, frames.map fun _ => none) := by
  induction frames with
  | nil => rfl
  | cons f fs ih =>
    have hf := h f (List.mem_cons_self f fs)
    have hstep : apply_hysteresis cfg st f.1 f.2 = (st, none) :=
      apply_hysteresis_dead cfg st f.1 f.2 hf.1 hf.2
    simp [run_hysteresis, hstep, ih (fun g hg => h g (List.mem_cons_of_mem f hg))]

/-- C4 witness: three frames at confidences 0.4, 0.3 and 0.5 (the closed
ends included) leave a mid-speech state untouched and emit nothing. -/
theorem hysteresis_dead_zone_witness :
    run_hysteresis vadServiceConfig ⟨true, 5, 7⟩
        [((2:ℚ)/5, 512), ((3:ℚ)/10, 512), ((1:ℚ)/2, 512)]
      = (⟨true, 5, 7⟩, [none, none, none]) :=
  hysteresis_dead_zone vadServiceConfig ⟨true, 5, 7⟩
    [((2:ℚ)/5, 512), ((3:ℚ)/10, 512), ((1:ℚ)/2, 512)]
    (by intro f hf
        simp only [List.mem_cons, List.not_mem_nil, or_false] at hf
        rcases hf with rfl | rfl | rfl <;>
          constructor <;> norm_num [vadServiceConfig])

/-! ### C9: event alternation -/

/-- `alternates_from b evs` holds when, reading `b` as the `is_speaking`
flag before the first event, the events strictly alternate: from
not-speaking the next event must be `speech_start`, from speaking it must
be `speech_end`. -/
def alternates_from (b : Bool) : List VADEventType → Bool
  | [] => true
  | e :: rest =>
    match b, e with
    | false, .speech_start => alternates_from true rest
    | true, .speech_end => alternates_from false rest
    | _, _ => false

/-- Every step falls in one of three cases: no event and `is_speaking`
unchanged, a `speech_start` flipping `is_speaking` from false to true, or
a `speech_end` flipping it from true to false. -/
theorem apply_hysteresis_speaking_spec (cfg : VADConfig) (st : HysteresisState)
    (c : ℚ) (n : ℕ) :
    ((apply_hysteresis cfg st c n).2 = none ∧
      (apply_hysteresis cfg st c n).1.is_speaking = st.is_speaking) ∨
    ((apply_hysteresis cfg st c n).2 = some .speech_start ∧
      st.is_speaking = false ∧ (apply_hysteresis cfg st c n).1.is_speaking = true) ∨
    ((apply_hysteresis cfg st c n).2 = some .speech_end ∧
      st.is_speaking = true ∧ (apply_hysteresis cfg st c n).1.is_speaking = false) := by
  simp only [apply_hysteresis]
  by_cases h1 : cfg.speech_threshold < c
  · rw [if_pos h1]
    by_cases h2 : st.is_speaking = false ∧
        cfg.min_speech_duration_ms * cfg.frames_per_ms ≤ ((st.speech_frames + n : ℕ) : ℚ)
    · rw [if_pos h2]
      exact Or.inr (Or.inl ⟨rfl, h2.1, rfl⟩)
    · rw [if_neg h2]
      exact Or.inl ⟨rfl, rfl⟩
  · rw [if_neg h1]
    by_cases h3 : c < cfg.silence_threshold
    · rw [if_pos h3]
      by_cases h4 : st.is_speaking = true ∧
          cfg.min_silence_duration_ms * cfg.frames_per_ms ≤ ((st.silence_frames + n : ℕ) : ℚ)
      · rw [if_pos h4]
        exact Or.inr (Or.inr ⟨rfl, h4.1, rfl⟩)
      · rw [if_neg h4]
        exact Or.inl ⟨rfl, rfl⟩
    · rw [if_neg h3]
      exact Or.inl ⟨rfl, rfl⟩

/-- A step that emits no event leaves `is_speaking` unchanged. -/
theorem apply_hysteresis_event_none (cfg : VADConfig) (st : HysteresisState)
    (c : ℚ) (n : ℕ) (h : (apply_hysteresis cfg st c n).2 = none) :
    (apply_hysteresis cfg st c n).1.is_speaking = st.is_speaking := by
  rcases apply_hysteresis_speaking_spec cfg st c n with ⟨_, hb⟩ | ⟨he, _⟩ | ⟨he, _⟩
  · exact hb
  · simp [h] at he
  · simp [h] at he

/-- `speech_start` is emitted only from `is_speaking = false` and sets it
to `true`. -/
theorem apply_hysteresis_event_start (cfg : VADConfig) (st : HysteresisState)
    (c : ℚ) (n : ℕ)
    (h : (apply_hysteresis cfg st c n).2 = some .speech_start) :
    st.is_speaking = false ∧ (apply_hysteresis cfg st c n).1.is_speaking = true := by
  rcases apply_hysteresis_speaking_spec cfg st c n with ⟨he, _⟩ | ⟨_, hb⟩ | ⟨he, _⟩
  · simp [h] at he
  · exact hb
  · simp [h] at he

/-- `speech_end` is emitted only from `is_speaking = true` and sets it to
`false`. -/
theorem apply_hysteresis_event_end (cfg : VADConfig) (st : HysteresisState)
    (c : ℚ) (n : ℕ)
    (h : (apply_hysteresis cfg st c n).2 = some .speech_end) :
    st.is_speaking = true ∧ (apply_hysteresis cfg st c n).1.is_speaking = false := by
  rcases apply_hysteresis_speaking_spec cfg st c n with ⟨he, _⟩ | ⟨he, _⟩ | ⟨_, hb⟩
  · simp [h] at he
  · simp [h] at he
  · exact hb

/-- From any state, the emitted event trace alternates relative to the
current `is_speaking` flag. -/
theorem event_trace_alternates_from (frames : List (ℚ × ℕ)) :
    ∀ (cfg : VADConfig) (st : HysteresisState),
      alternates_from st.is_speaking (event_trace cfg st frames) = true := by
  induction frames with
  | nil => intro cfg st; rfl
  | cons f fs ih =>
    intro cfg st
    cases hs : (apply_hysteresis cfg st f.1 f.2).2 with
    | none =>
      have hb := apply_hysteresis_event_none cfg st f.1 f.2 hs
      have hrest := ih cfg (apply_hysteresis cfg st f.1 f.2).1
      rw [hb] at hrest
      simpa [event_trace, run_hysteresis, hs] using hrest
    | some e =>
      cases e with
      | speech_start =>
        obtain ⟨h0, h1⟩ := apply_hysteresis_event_start cfg st f.1 f.2 hs
        have hrest := ih cfg (apply_hysteresis cfg st f.1 f.2).1
        rw [h1] at hrest
        simpa [event_trace, run_hysteresis, hs, h0, alternates_from] using hrest
      | speech_end =>
        obtain ⟨h0, h1⟩ := apply_hysteresis_event_end cfg st f.1 f.2 hs
        have hrest := ih cfg (apply_hysteresis cfg st f.1 f.2).1
        rw [h1] at hrest
        simpa [event_trace, run_hysteresis, hs, h0, alternates_from] using hrest

/-- C9: from the initial state, for every configuration and every frame
sequence, the emitted event trace starts with `speech_start` and
`speech_start`/`speech_end` strictly alternate — two consecutive events
of the same kind never occur. -/
theorem event_alternation (cfg : VADConfig) (frames : List (ℚ × ℕ)) :
    alternates_from false (event_trace cfg initialHysteresisState frames) = true :=
  event_trace_alternates_from frames cfg initialHysteresisState

/-! ### C3: debounce timing -/

/-- With the 100 ms preset, `min_speech_samples = 100 * 16 = 1600`, and a
confidence of 0.9 always takes the speech branch; the step reduces to a
pure threshold test on the accumulated speech run. -/
theorem debounce_step (st : HysteresisState) (n : ℕ) :
    apply_hysteresis debounceConfig st ((9:ℚ)/10) n
      = if st.is_speaking = false ∧ 1600 ≤ st.speech_frames + n
        then (⟨true, st.speech_frames + n, 0⟩, some .speech_start)
        else (⟨st.is_speaking, st.speech_frames + n, 0⟩, none) := by
  have h1 : debounceConfig.speech_threshold < (9:ℚ)/10 := by
    norm_num [debounceConfig]
  have hmin : debounceConfig.min_speech_duration_ms * debounceConfig.frames_per_ms
      = (1600:ℚ) := by
    norm_num [debounceConfig, VADConfig.frames_per_ms]
  have hcast : ∀ m : ℕ, ((1600:ℚ) ≤ (m:ℚ)) ↔ 1600 ≤ m := by
    intro m
    exact_mod_cast Iff.rfl
  simp only [apply_hysteresis, h1, if_true, hmin, hcast]

/-- The per-frame event outputs the debounce run ought to produce, from
an already-accumulated speech run `acc`: `none` until the first frame
whose added samples reach 1600, `speech_start` there, `none` after. -/
def expected_debounce_events (acc : ℕ) : List ℕ → List (Option VADEventType)
  | [] => []
  | n :: rest =>
    if 1600 ≤ acc + n then some .speech_start :: rest.map (fun _ => none)
    else none :: expected_debounce_events (acc + n) rest

/-- Index of the first frame at which the running sum, started at `acc`,
reaches `target` (equals the list length when it never does). -/
def first_reach_index (target acc : ℕ) : List ℕ → ℕ
  | [] => 0
  | n :: rest =>
    if target ≤ acc + n then 0 else first_reach_index target (acc + n) rest + 1

/-- Once speaking, frames at confidence 0.9 emit no further event. -/
theorem run_debounce_speaking (ns : List ℕ) :
    ∀ st : HysteresisState, st.is_speaking = true →
      (run_hysteresis debounceConfig st (ns.map fun n => ((9:ℚ)/10, n))).2
        = ns.map fun _ => none := by
  induction ns with
  | nil => intro st h; rfl
  | cons n rest ih =>
    intro st h
    have hstep := debounce_step st n
    rw [if_neg (by simp [h])] at hstep
    simp only [List.map_cons, run_hysteresis, hstep]
    rw [ih ⟨st.is_speaking, st.speech_frames + n, 0⟩ h]

/-- From a silent state with accumulated run `acc < 1600`, the debounce
run emits exactly the expected event list. -/
theorem run_debounce_silent (ns : List ℕ) :
    ∀ acc sil : ℕ, acc < 1600 →
      (run_hysteresis debounceConfig ⟨false, acc, sil⟩
          (ns.map fun n => ((9:ℚ)/10, n))).2
        = expected_debounce_events acc ns := by
  induction ns with
  | nil => intro acc sil h; rfl
  | cons n rest ih =>
    intro acc sil hacc
    have hstep := debounce_step ⟨false, acc, sil⟩ n
    by_cases hc : 1600 ≤ acc + n
    · rw [if_pos ⟨rfl, hc⟩] at hstep
      simp only [List.map_cons, run_hysteresis, hstep, expected_debounce_events,
        if_pos hc]
      rw [run_debounce_speaking rest ⟨true, acc + n, 0⟩ rfl]
    · rw [if_neg (by simp [hc])] at hstep
      simp only [List.map_cons, run_hysteresis, hstep, expected_debounce_events,
        if_neg hc]
      rw [ih (acc + n) 0 (by omega)]

/-- Positionally, the expected event list is `speech_start` exactly at
the first-reach index and `none` everywhere else. -/
theorem expected_debounce_events_get (ns : List ℕ) :
    ∀ acc i : ℕ, i < ns.length →
      (expected_debounce_events acc ns)[i]?
        = some (if i = first_reach_index 1600 acc ns then some .speech_start
                else none) := by
  induction ns with
  | nil => intro acc i h; simp at h
  | cons n rest ih =>
    intro acc i h
    by_cases hc : 1600 ≤ acc + n
    · cases i with
      | zero => simp [expected_debounce_events, first_reach_index, hc]
      | succ j =>
        have hj : j < rest.length := by simpa using h
        simp only [expected_debounce_events, first_reach_index, if_pos hc]
        rw [List.getElem?_cons_succ, List.getElem?_map,
          List.getElem?_eq_getElem hj]
        simp
    · cases i with
      | zero => simp [expected_debounce_events, first_reach_index, hc]
      | succ j =>
        have hj : j < rest.length := by simpa using h
        simp only [expected_debounce_events, first_reach_index, if_neg hc]
        rw [List.getElem?_cons_succ, ih (acc + n) j hj]
        simp

/-- When the total reaches the target from below, the first-reach index
is a real position in the list. -/
theorem first_reach_index_lt (ns : List ℕ) :
    ∀ acc : ℕ, acc < 1600 → 1600 ≤ acc + ns.sum →
      first_reach_index 1600 acc ns < ns.length := by
  induction ns with
  | nil =>
    intro acc h1 h2
    simp at h2
    omega
  | cons n rest ih =>
    intro acc h1 h2
    by_cases hc : 1600 ≤ acc + n
    · simp [first_reach_index, hc]
    · have h2x : 1600 ≤ (acc + n) + rest.sum := by
        simp only [List.sum_cons] at h2
        omega
      simp only [first_reach_index, if_neg hc, List.length_cons]
      exact Nat.succ_lt_succ (ih (acc + n) (by omega) h2x)

/-- A run's event output list has one entry per input frame. -/
theorem run_hysteresis_length (cfg : VADConfig) (frames : List (ℚ × ℕ)) :
    ∀ st : HysteresisState,
      ((run_hysteresis cfg st frames).2).length = frames.length := by
  induction frames with
  | nil => intro st; rfl
  | cons f fs ih => intro st; simp [run_hysteresis, ih]

/-- C3: with `speech_threshold = 0.5` and `min_speech_duration` of 1600
samples (100 ms at 16 kHz), starting from the initial silent state, a
sequence of frames of confidence 0.9 whose sample counts sum to exactly
1600 produces per-frame outputs with exactly one `speech_start`, emitted
on the frame whose accumulated speech run first reaches 1600, and no
event on any other frame (in particular none earlier). -/
theorem hysteresis_debounce (ns : List ℕ) (h : ns.sum = 1600) :
    ((run_hysteresis debounceConfig initialHysteresisState
        (ns.map fun n => ((9:ℚ)/10, n))).2).length = ns.length ∧
    first_reach_index 1600 0 ns < ns.length ∧
    ∀ i, i < ns.length →
      ((run_hysteresis debounceConfig initialHysteresisState
          (ns.map fun n => ((9:ℚ)/10, n))).2)[i]?
        = some (if i = first_reach_index 1600 0 ns then some .speech_start
                else none) := by
  have hrun : (run_hysteresis debounceConfig initialHysteresisState
      (ns.map fun n => ((9:ℚ)/10, n))).2 = expected_debounce_events 0 ns :=
    run_debounce_silent ns 0 0 (by decide)
  refine ⟨?_, ?_, ?_⟩
  · rw [run_hysteresis_length]
    simp
  · exact first_reach_index_lt ns 0 (by decide) (by omega)
  · intro i hi
    rw [hrun]
    exact expected_debounce_events_get ns 0 i hi

/-- C3 witness: four frames of 512, 512, 512 and 64 samples sum to 1600;
the run is eventless until the fourth frame, which emits the single
`speech_start`. -/
theorem hysteresis_debounce_witness :
    ([512, 512, 512, 64] : List ℕ).sum = 1600 ∧
    first_reach_index 1600 0 [512, 512, 512, 64] < 4 ∧
    ((run_hysteresis debounceConfig initialHysteresisState
        (([512, 512, 512, 64] : List ℕ).map fun n => ((9:ℚ)/10, n))).2)[3]?
      = some (if 3 = first_reach_index 1600 0 [512, 512, 512, 64]
              then some .speech_start else none) :=
  ⟨by decide,
   (hysteresis_debounce [512, 512, 512, 64] (by decide)).2.1,
   (hysteresis_debounce [512, 512, 512, 64] (by decide)).2.2 3 (by decide)⟩
